import Mathlib

/-!
Shallow embedding of `src/unicon.c` (unit-conversion tool): the unit
registry (`unit_table`), the conversion engine (`convertUnit`, with the
C switch fallthrough modelled explicitly), the name lookup
(`matchArgument`) and the argument reordering performed by `main`
(`mainConvert`).  Doubles are embedded as exact rationals.
-/

set_option autoImplicit false

deriving instance DecidableEq for Except

namespace Unicon

/-- Embeds the C enum `UnitType` (src/unicon.c lines 33-39). -/
inductive UnitType where
  | TEMPERATURE
  | LENGTH
  | TIME
  | MASS
  | DIGITAL
  deriving DecidableEq, Repr

/-- Embeds the C enum `Unit` (src/unicon.c lines 42-53), in declaration order. -/
inductive Unit where
  | CELSIUS
  | FAHRENHEIT
  | KELVIN
  | METERS
  | CENTIMETERS
  | DECIMETERS
  | DECAMETERS
  | HECTOMETERS
  | KILOMETERS
  | MILLIMETERS
  | MILE
  | INCHES
  | FEET
  | SECONDS
  | MILLISECONDS
  | MINUTES
  | HOURS
  | DAYS
  | MONTHS
  | YEARS
  | GRAMS
  | CENTIGRAMS
  | DECIGRAMS
  | DECAGRAMS
  | HECTOGRAMS
  | MILLIGRAMS
  | KILOGRAMS
  | POUNDS
  | OUNCES
  | BYTES
  | KILOBYTES
  | MEGABYTES
  | GIGABYTES
  | TERABYTES
  | PETABYTES
  | EXABYTES
  deriving DecidableEq, Fintype, Repr

/-- The numeric value of each `Unit` enumerator (C enums number constructors
from 0 in declaration order). -/
def Unit.idx : Unit → Nat
  | .CELSIUS => 0
  | .FAHRENHEIT => 1
  | .KELVIN => 2
  | .METERS => 3
  | .CENTIMETERS => 4
  | .DECIMETERS => 5
  | .DECAMETERS => 6
  | .HECTOMETERS => 7
  | .KILOMETERS => 8
  | .MILLIMETERS => 9
  | .MILE => 10
  | .INCHES => 11
  | .FEET => 12
  | .SECONDS => 13
  | .MILLISECONDS => 14
  | .MINUTES => 15
  | .HOURS => 16
  | .DAYS => 17
  | .MONTHS => 18
  | .YEARS => 19
  | .GRAMS => 20
  | .CENTIGRAMS => 21
  | .DECIGRAMS => 22
  | .DECAGRAMS => 23
  | .HECTOGRAMS => 24
  | .MILLIGRAMS => 25
  | .KILOGRAMS => 26
  | .POUNDS => 27
  | .OUNCES => 28
  | .BYTES => 29
  | .KILOBYTES => 30
  | .MEGABYTES => 31
  | .GIGABYTES => 32
  | .TERABYTES => 33
  | .PETABYTES => 34
  | .EXABYTES => 35

/-- Embeds the C struct `UnitTable` (src/unicon.c lines 56-61). -/
structure UnitTable where
  type : UnitType
  unit : Unit
  name : String
  conversion_factor : ℚ
  deriving DecidableEq, Repr

/-- Embeds the static array `unit_table` (src/unicon.c lines 64-106),
entry for entry in source order; the `double` conversion factors are
read as exact rationals. -/
def unit_table : List UnitTable := [
  ⟨.TEMPERATURE, .CELSIUS, "celsius", 0⟩,
  ⟨.TEMPERATURE, .FAHRENHEIT, "fahrenheit", 0⟩,
  ⟨.TEMPERATURE, .KELVIN, "kelvin", 0⟩,
  ⟨.LENGTH, .METERS, "meters", 1.0⟩,
  ⟨.LENGTH, .CENTIMETERS, "centimeters", 100.0⟩,
  ⟨.LENGTH, .DECIMETERS, "decimeters", 10.0⟩,
  ⟨.LENGTH, .DECAMETERS, "decameters", 0.1⟩,
  ⟨.LENGTH, .HECTOMETERS, "hectometers", 0.01⟩,
  ⟨.LENGTH, .KILOMETERS, "kilometers", 0.001⟩,
  ⟨.LENGTH, .MILLIMETERS, "millimeters", 1000.0⟩,
  ⟨.LENGTH, .MILE, "miles", 0.000621371⟩,
  ⟨.LENGTH, .INCHES, "inches", 39.3701⟩,
  ⟨.LENGTH, .FEET, "feet", 3.28084⟩,
  ⟨.TIME, .SECONDS, "seconds", 1.0⟩,
  ⟨.TIME, .MILLISECONDS, "milliseconds", 1000.0⟩,
  ⟨.TIME, .MINUTES, "minutes", 1.0 / 60.0⟩,
  ⟨.TIME, .HOURS, "hours", 1.0 / 3600.0⟩,
  ⟨.TIME, .DAYS, "days", 1.0 / 86400.0⟩,
  ⟨.TIME, .MONTHS, "months", 1.0 / 2592000.0⟩,
  ⟨.TIME, .YEARS, "years", 1.0 / 31536000.0⟩,
  ⟨.MASS, .GRAMS, "grams", 1.0⟩,
  ⟨.MASS, .CENTIGRAMS, "centigrams", 100.0⟩,
  ⟨.MASS, .DECIGRAMS, "decigrams", 10.0⟩,
  ⟨.MASS, .DECAGRAMS, "decagrams", 0.1⟩,
  ⟨.MASS, .HECTOGRAMS, "hectograms", 0.01⟩,
  ⟨.MASS, .MILLIGRAMS, "milligrams", 1000.0⟩,
  ⟨.MASS, .KILOGRAMS, "kilograms", 0.001⟩,
  ⟨.MASS, .POUNDS, "pounds", 0.00220462⟩,
  ⟨.MASS, .OUNCES, "ounces", 0.03527396⟩,
  ⟨.DIGITAL, .BYTES, "bytes", 1.0⟩,
  ⟨.DIGITAL, .KILOBYTES, "kilobytes", 1.0 / 1024.0⟩,
  ⟨.DIGITAL, .MEGABYTES, "megabytes", 1.0 / 1048576.0⟩,
  ⟨.DIGITAL, .GIGABYTES, "gigabytes", 1.0 / 1073741824.0⟩,
  ⟨.DIGITAL, .TERABYTES, "terabytes", 1.0 / 1099511627776.0⟩,
  ⟨.DIGITAL, .PETABYTES, "petabytes", 1.0 / 1125899906842624.0⟩,
  ⟨.DIGITAL, .EXABYTES, "exabytes", 1.0 / 1152921504606846976.0⟩]

/-- Placeholder entry for out-of-range indexing (never reached for a valid
`Unit`, see theorem C9). -/
def dfltEntry : UnitTable := ⟨.TEMPERATURE, .CELSIUS, "", 0⟩

/-- `unit_table[u]` — indexing the table by the numeric value of a unit,
as `convertUnit` and `main` do in the C source. -/
def describe (u : Unit) : UnitTable := unit_table.getD u.idx dfltEntry

/-- `unit_table[u].type` — the family the table stores for a unit. -/
def famOf (u : Unit) : UnitType := (describe u).type

/-- `unit_table[u].conversion_factor` — the scale factor the table stores. -/
def cf (u : Unit) : ℚ := (describe u).conversion_factor

/-- The single failure the conversion engine signals: the C code prints
"Cannot convert between different unit types." and calls `exit(1)`
(src/unicon.c lines 281-284). -/
inductive ConvErr where
  | IncompatibleFamilies
  deriving DecidableEq, Repr

/-- The `default:` arm of the outer switch in `convertUnit`
(src/unicon.c lines 280-286): reject differing table types, otherwise
return `value * (unit_table[from].conversion_factor / unit_table[to].conversion_factor)`. -/
def defaultArm (value : ℚ) (f t : Unit) : Except ConvErr ℚ :=
  if famOf f ≠ famOf t then .error .IncompatibleFamilies
  else .ok (value * (cf f / cf t))

/-- The `case CELSIUS:` arm (src/unicon.c lines 253-261): the inner switch
on `to`; when no inner case matches, control falls through to `next`. -/
def celsiusArm (value : ℚ) (t : Unit) (next : Except ConvErr ℚ) : Except ConvErr ℚ :=
  match t with
  | .FAHRENHEIT => .ok (value * 9 / 5 + 32)
  | .KELVIN => .ok (value + 273.15)
  | _ => next

/-- The `case FAHRENHEIT:` arm (src/unicon.c lines 262-270). -/
def fahrenheitArm (value : ℚ) (t : Unit) (next : Except ConvErr ℚ) : Except ConvErr ℚ :=
  match t with
  | .CELSIUS => .ok ((value - 32) * 5 / 9)
  | .KELVIN => .ok ((value - 32) * 5 / 9 + 273.15)
  | _ => next

/-- The `case KELVIN:` arm (src/unicon.c lines 271-279). -/
def kelvinArm (value : ℚ) (t : Unit) (next : Except ConvErr ℚ) : Except ConvErr ℚ :=
  match t with
  | .CELSIUS => .ok (value - 273.15)
  | .FAHRENHEIT => .ok ((value - 273.15) * 9 / 5 + 32)
  | _ => next

/-- Embeds `convertUnit` (src/unicon.c lines 246-288).  The outer C switch
has no `break` between its cases, so each arm falls through to the next:
entering at `CELSIUS` runs the Celsius arm, then (absent a return) the
Fahrenheit arm, the Kelvin arm and finally the default arm. -/
def convertUnit (value : ℚ) (f t : Unit) : Except ConvErr ℚ :=
  if f = t then .ok value
  else
    match f with
    | .CELSIUS =>
        celsiusArm value t (fahrenheitArm value t (kelvinArm value t (defaultArm value f t)))
    | .FAHRENHEIT =>
        fahrenheitArm value t (kelvinArm value t (defaultArm value f t))
    | .KELVIN =>
        kelvinArm value t (defaultArm value f t)
    | _ => defaultArm value f t

/-- `strcasecmp(a, b) == 0`, on the character lists of the two strings:
equal length and equal characters after lower-casing. -/
def caseEq (a b : List Char) : Bool :=
  match a, b with
  | [], [] => true
  | c :: cs, d :: ds => (c.toLower == d.toLower) && caseEq cs ds
  | _, _ => false

/-- The scan loop of `matchArgument` (src/unicon.c lines 292-296). -/
def matchAux (arg : String) : List UnitTable → Option Unit
  | [] => none
  | e :: rest => if caseEq arg.data e.name.data then some e.unit else matchAux arg rest

/-- Embeds `matchArgument` (src/unicon.c lines 291-298): first
case-insensitive match in `unit_table`; the C code returns `-1` on
failure, embedded as `none`. -/
def matchArgument (arg : String) : Option Unit := matchAux arg unit_table

/-- The conversion step of `main` (src/unicon.c lines 200-206): the unit
with the smaller enumeration value is always passed as the source. -/
def mainConvert (value : ℚ) (f t : Unit) : Except ConvErr ℚ :=
  if f.idx < t.idx then convertUnit value f t else convertUnit value t f

/-! ## Helper lemmas -/

/-- A unit has table type `TEMPERATURE` exactly when it is one of the three
temperature enumerators. -/
lemma famOf_temp_iff : ∀ u : Unit, famOf u = .TEMPERATURE ↔
    (u = .CELSIUS ∨ u = .FAHRENHEIT ∨ u = .KELVIN) := by decide

/-- The enumeration value determines the unit. -/
lemma idx_inj : ∀ a b : Unit, a.idx = b.idx → a = b := by decide

/-- Every entry of the table for a non-Temperature unit carries a nonzero
conversion factor. -/
lemma cf_ne_zero (u : Unit) (h : famOf u ≠ .TEMPERATURE) : cf u ≠ 0 := by
  fin_cases u <;> first
  | exact absurd rfl h
  | norm_num [cf, describe, unit_table, dfltEntry, Unit.idx]

lemma celsiusArm_skip (v : ℚ) (t : Unit) (nx : Except ConvErr ℚ)
    (h1 : t ≠ .FAHRENHEIT) (h2 : t ≠ .KELVIN) : celsiusArm v t nx = nx := by
  cases t <;> first | rfl | exact absurd rfl h1 | exact absurd rfl h2

lemma fahrenheitArm_skip (v : ℚ) (t : Unit) (nx : Except ConvErr ℚ)
    (h1 : t ≠ .CELSIUS) (h2 : t ≠ .KELVIN) : fahrenheitArm v t nx = nx := by
  cases t <;> first | rfl | exact absurd rfl h1 | exact absurd rfl h2

lemma kelvinArm_skip (v : ℚ) (t : Unit) (nx : Except ConvErr ℚ)
    (h1 : t ≠ .CELSIUS) (h2 : t ≠ .FAHRENHEIT) : kelvinArm v t nx = nx := by
  cases t <;> first | rfl | exact absurd rfl h1 | exact absurd rfl h2

/-- A non-temperature source goes straight to the default arm. -/
lemma convertUnit_default (v : ℚ) (f t : Unit) (hft : f ≠ t)
    (hf : famOf f ≠ .TEMPERATURE) : convertUnit v f t = defaultArm v f t := by
  unfold convertUnit
  rw [if_neg hft]
  cases f <;> first
  | rfl
  | exact absurd (by decide) hf

/-- A unit whose table type is not `TEMPERATURE` is none of the three
temperature enumerators. -/
lemma not_temp_units (t : Unit) (h : famOf t ≠ .TEMPERATURE) :
    t ≠ .CELSIUS ∧ t ≠ .FAHRENHEIT ∧ t ≠ .KELVIN := by
  refine ⟨?_, ?_, ?_⟩ <;> rintro rfl <;> exact h (by decide)

/-- A temperature source paired with a non-temperature target falls through
all three temperature arms into the default arm. -/
lemma convertUnit_from_temp (v : ℚ) (f t : Unit) (hf : famOf f = .TEMPERATURE)
    (ht : famOf t ≠ .TEMPERATURE) : convertUnit v f t = defaultArm v f t := by
  obtain ⟨h1, h2, h3⟩ := not_temp_units t ht
  have hft : f ≠ t := fun e => ht (e ▸ hf)
  unfold convertUnit
  rw [if_neg hft]
  rcases (famOf_temp_iff f).1 hf with rfl | rfl | rfl
  · show celsiusArm v t (fahrenheitArm v t (kelvinArm v t (defaultArm v .CELSIUS t))) = _
    rw [celsiusArm_skip v t _ h2 h3, fahrenheitArm_skip v t _ h1 h3,
      kelvinArm_skip v t _ h1 h2]
  · show fahrenheitArm v t (kelvinArm v t (defaultArm v .FAHRENHEIT t)) = _
    rw [fahrenheitArm_skip v t _ h1 h3, kelvinArm_skip v t _ h1 h2]
  · show kelvinArm v t (defaultArm v .KELVIN t) = _
    rw [kelvinArm_skip v t _ h1 h2]

lemma defaultArm_incompatible (v : ℚ) (f t : Unit) (h : famOf f ≠ famOf t) :
    defaultArm v f t = .error .IncompatibleFamilies := by
  unfold defaultArm
  rw [if_pos h]

lemma defaultArm_ok (v : ℚ) (f t : Unit) (h : famOf f = famOf t) :
    defaultArm v f t = .ok (v * (cf f / cf t)) := by
  unfold defaultArm
  rw [if_neg (not_not_intro h)]

lemma convertUnit_CF (v : ℚ) :
    convertUnit v .CELSIUS .FAHRENHEIT = .ok (v * 9 / 5 + 32) := rfl

lemma convertUnit_CK (v : ℚ) :
    convertUnit v .CELSIUS .KELVIN = .ok (v + 273.15) := rfl

lemma convertUnit_FC (v : ℚ) :
    convertUnit v .FAHRENHEIT .CELSIUS = .ok ((v - 32) * 5 / 9) := rfl

lemma convertUnit_FK (v : ℚ) :
    convertUnit v .FAHRENHEIT .KELVIN = .ok ((v - 32) * 5 / 9 + 273.15) := rfl

lemma convertUnit_KC (v : ℚ) :
    convertUnit v .KELVIN .CELSIUS = .ok (v - 273.15) := rfl

lemma convertUnit_KF (v : ℚ) :
    convertUnit v .KELVIN .FAHRENHEIT = .ok ((v - 273.15) * 9 / 5 + 32) := rfl

/-- Same-family conversions always succeed, and converting back recovers the
original value exactly (rational-arithmetic semantics). -/
lemma roundTrip_aux (v : ℚ) (f t : Unit) (h : famOf f = famOf t) :
    ∃ w, convertUnit v f t = .ok w ∧ convertUnit w t f = .ok v := by
  by_cases hft : f = t
  · subst hft
    exact ⟨v, by simp [convertUnit], by simp [convertUnit]⟩
  by_cases hT : famOf f = .TEMPERATURE
  · have ht : famOf t = .TEMPERATURE := h.symm.trans hT
    rcases (famOf_temp_iff f).1 hT with rfl | rfl | rfl <;>
      rcases (famOf_temp_iff t).1 ht with rfl | rfl | rfl <;>
      first
      | exact absurd rfl hft
      | exact ⟨_, convertUnit_CF v, by rw [convertUnit_FC]; simp only [Except.ok.injEq]; ring⟩
      | exact ⟨_, convertUnit_CK v, by rw [convertUnit_KC]; simp only [Except.ok.injEq]; ring⟩
      | exact ⟨_, convertUnit_FC v, by rw [convertUnit_CF]; simp only [Except.ok.injEq]; ring⟩
      | exact ⟨_, convertUnit_FK v, by rw [convertUnit_KF]; simp only [Except.ok.injEq]; ring⟩
      | exact ⟨_, convertUnit_KC v, by rw [convertUnit_CK]; simp only [Except.ok.injEq]; ring⟩
      | exact ⟨_, convertUnit_KF v, by rw [convertUnit_FK]; simp only [Except.ok.injEq]; ring⟩
  · have ht : famOf t ≠ .TEMPERATURE := fun e => hT (h.trans e)
    refine ⟨v * (cf f / cf t), ?_, ?_⟩
    · rw [convertUnit_default v f t hft hT, defaultArm_ok v f t h]
    · rw [convertUnit_default _ t f (Ne.symm hft) ht, defaultArm_ok _ t f h.symm]
      have h1 : cf f ≠ 0 := cf_ne_zero f hT
      have h2 : cf t ≠ 0 := cf_ne_zero t ht
      simp only [Except.ok.injEq]
      field_simp

/-! ## Claim theorems -/

/-- C1: for every value and every pair of distinct units of the same
non-Temperature family, the engine returns
`value * (scale_factor(from) / scale_factor(to))`, the scale factors being
those of `unit_table`. -/
theorem C1_ratio_same_family (v : ℚ) (f t : Unit) (hne : f ≠ t)
    (hfam : famOf f = famOf t) (hT : famOf f ≠ .TEMPERATURE) :
    convertUnit v f t = .ok (v * (cf f / cf t)) := by
  rw [convertUnit_default v f t hne hT, defaultArm_ok v f t hfam]

/-- Witness for C1 at value 1, Meters to Kilometers. -/
theorem C1_ratio_same_family_witness :
    (Unit.METERS ≠ Unit.KILOMETERS) ∧ famOf .METERS = famOf .KILOMETERS ∧
      famOf .METERS ≠ .TEMPERATURE ∧
      convertUnit 1 .METERS .KILOMETERS = .ok (1 * (cf .METERS / cf .KILOMETERS)) :=
  ⟨by decide, by decide, by decide,
    C1_ratio_same_family 1 .METERS .KILOMETERS (by decide) (by decide) (by decide)⟩

/-- C2: the claim expects `convert(1, Kilometers, Meters) = 1000.0`, but the
engine as coded computes `1 * (0.001 / 1.0) = 0.001`; the CLI only prints
1000 for this pair because `main` passes the smaller-numbered unit (Meters)
as the source. -/
theorem C2_km_to_m_engine_value :
    convertUnit 1 .KILOMETERS .METERS = .ok 0.001 ∧
      mainConvert 1 .KILOMETERS .METERS = .ok 1000 := by
  constructor
  · have h : convertUnit 1 .KILOMETERS .METERS
        = .ok (1 * (cf .KILOMETERS / cf .METERS)) := rfl
    rw [h]; norm_num [cf, describe, unit_table, dfltEntry, Unit.idx]
  · have h : mainConvert 1 .KILOMETERS .METERS
        = .ok (1 * (cf .METERS / cf .KILOMETERS)) := rfl
    rw [h]; norm_num [cf, describe, unit_table, dfltEntry, Unit.idx]

/-- C3: whenever the two table families differ the engine fails with
`IncompatibleFamilies` — also when exactly one side is a Temperature unit,
despite the fallthrough-shaped switch — and whenever they agree it returns
a value, so `IncompatibleFamilies` is the only error it ever raises. -/
theorem C3_cross_family_rejection (v : ℚ) (f t : Unit) :
    (famOf f ≠ famOf t → convertUnit v f t = .error .IncompatibleFamilies) ∧
      (famOf f = famOf t → ∃ r, convertUnit v f t = .ok r) := by
  constructor
  · intro h
    have hft : f ≠ t := fun e => h (congrArg famOf e)
    by_cases hT : famOf f = .TEMPERATURE
    · rw [convertUnit_from_temp v f t hT (fun e => h (hT.trans e.symm))]
      exact defaultArm_incompatible v f t h
    · rw [convertUnit_default v f t hft hT]
      exact defaultArm_incompatible v f t h
  · intro h
    obtain ⟨w, hw, _⟩ := roundTrip_aux v f t h
    exact ⟨w, hw⟩

/-- Witness for C3: Celsius to Meters (a temperature source and a
non-temperature target) is rejected. -/
theorem C3_cross_family_rejection_witness :
    famOf .CELSIUS ≠ famOf .METERS ∧
      convertUnit 0 .CELSIUS .METERS = .error .IncompatibleFamilies :=
  ⟨by decide, (C3_cross_family_rejection 0 .CELSIUS .METERS).1 (by decide)⟩

/-- C4: the six temperature pairs follow exactly the six closed-form
formulas, and in particular convert(0, Celsius, Fahrenheit) = 32 and
convert(100, Celsius, Kelvin) = 373.15. -/
theorem C4_temperature_formulas (v : ℚ) :
    convertUnit v .CELSIUS .FAHRENHEIT = .ok (v * 9 / 5 + 32) ∧
      convertUnit v .CELSIUS .KELVIN = .ok (v + 273.15) ∧
      convertUnit v .FAHRENHEIT .CELSIUS = .ok ((v - 32) * 5 / 9) ∧
      convertUnit v .FAHRENHEIT .KELVIN = .ok ((v - 32) * 5 / 9 + 273.15) ∧
      convertUnit v .KELVIN .CELSIUS = .ok (v - 273.15) ∧
      convertUnit v .KELVIN .FAHRENHEIT = .ok ((v - 273.15) * 9 / 5 + 32) ∧
      convertUnit 0 .CELSIUS .FAHRENHEIT = .ok 32 ∧
      convertUnit 100 .CELSIUS .KELVIN = .ok 373.15 := by
  refine ⟨rfl, rfl, rfl, rfl, rfl, rfl, ?_, ?_⟩
  · rw [convertUnit_CF]
    simp only [Except.ok.injEq]
    norm_num
  · rw [convertUnit_CK]
    simp only [Except.ok.injEq]
    norm_num

/-- C5: converting any value from a unit to itself returns it unchanged,
Temperature units included. -/
theorem C5_identity (v : ℚ) (u : Unit) : convertUnit v u u = .ok v := by
  simp [convertUnit]

/-- C6: for any two units of the same family neither conversion errors and
converting there and back recovers the value (exactly, under the
rational-arithmetic embedding, hence within any tolerance). -/
theorem C6_round_trip (v : ℚ) (f t : Unit) (h : famOf f = famOf t) :
    ∃ w, convertUnit v f t = .ok w ∧ convertUnit w t f = .ok v :=
  roundTrip_aux v f t h

/-- Witness for C6 at value 60, Minutes to Seconds and back. -/
theorem C6_round_trip_witness :
    famOf .MINUTES = famOf .SECONDS ∧
      ∃ w, convertUnit 60 .MINUTES .SECONDS = .ok w ∧
        convertUnit w .SECONDS .MINUTES = .ok 60 :=
  ⟨by decide, C6_round_trip 60 .MINUTES .SECONDS (by decide)⟩

/-- C7: lookup is a case-insensitive scan of the table: the three spellings
of kelvin all resolve to `KELVIN`, an unknown name yields no unit, and every
registered name resolves to its own unit. -/
theorem C7_lookup_case_insensitive :
    matchArgument ("KELVIN") = some .KELVIN ∧
      matchArgument ("kelvin") = some .KELVIN ∧
      matchArgument ("Kelvin") = some .KELVIN ∧
      matchArgument ("parsecs") = none ∧
      ∀ e ∈ unit_table, matchArgument e.name = some e.unit := by
  refine ⟨by decide, by decide, by decide, by decide, by decide⟩

/-- Witness for C7 at the first table entry. -/
theorem C7_lookup_case_insensitive_witness :
    matchArgument ("celsius") = some Unit.CELSIUS :=
  C7_lookup_case_insensitive.2.2.2.2 ⟨.TEMPERATURE, .CELSIUS, "celsius", 0⟩ (by decide)

/-- C8: any two distinct descriptors of the registry have names that differ
even under the case-insensitive comparison the code uses, across all
families. -/
theorem C8_name_uniqueness :
    unit_table.Pairwise (fun a b => caseEq a.name.data b.name.data = false) := by
  decide

/-- C9: the table has one entry per unit and `unit_table[i].unit = i` at
every index, so indexing the table by a unit value yields that unit's own
descriptor. -/
theorem C9_table_index :
    unit_table.length = 36 ∧
      (∀ i : Fin unit_table.length, (unit_table.get i).unit.idx = i.val) ∧
      ∀ u : Unit, (describe u).unit = u := by
  refine ⟨by decide, by decide, by decide⟩

/-- C10: `main` always passes the unit with the smaller enumeration value as
the source, so the numeric result it computes is the same whichever of the
two distinct units the user names first. -/
theorem C10_direction_independence (v : ℚ) (f t : Unit) (h : f ≠ t) :
    mainConvert v f t = mainConvert v t f := by
  rcases lt_trichotomy f.idx t.idx with hlt | heq | hgt
  · unfold mainConvert
    rw [if_pos hlt, if_neg (Nat.lt_asymm hlt)]
  · exact absurd (idx_inj f t heq) h
  · unfold mainConvert
    rw [if_neg (Nat.lt_asymm hgt), if_pos hgt]

/-- Witness for C10 at value 1, Kilometers and Meters. -/
theorem C10_direction_independence_witness :
    Unit.KILOMETERS ≠ Unit.METERS ∧
      mainConvert 1 .KILOMETERS .METERS = mainConvert 1 .METERS .KILOMETERS :=
  ⟨by decide, C10_direction_independence 1 .KILOMETERS .METERS (by decide)⟩

end Unicon
